import Mathlib

/-
Verification of the file-routing contract implemented by
`api/core/agent/tools/file_dispatcher.py` (class `FileDispatcherTool`).

The embedding below translates the Python code shallowly:

* Python `dict` values are association lists with Python-dict update
  semantics (`dictInsert` keeps the position of an existing key and
  replaces its value, a new key is appended at the end; `dictGet` returns
  the value stored for a key).
* The generator `_invoke` becomes a function returning
  `Except String (List Msg × FileDispatcherTool)`: the list models the
  yielded `ToolInvokeMessage`s in order, the returned tool value models the
  state of `self` after the call (Python mutates `self.tool_file_map` in
  place), and `.error` models a Python exception escaping the call.
* Python string operations are modelled on the character list of the
  string: `pyStrip` is `str.strip()`, `pyStartswith` is `str.startswith`,
  `pySliceFrom s n` is the slice `s[n:]`.
* Reference sharing of the injected `tool_file_map` dict (the `or {}`
  expression in `__init__`) is modelled separately with an explicit heap
  of routing tables addressed by `Nat`.
-/

set_option autoImplicit false

deriving instance DecidableEq for Except

namespace FileDispatcher

/-- A `core.file.File` as far as this tool observes it: its `filename`,
its type tag and its byte size. -/
structure File where
  filename : String
  ftype : String
  size : Nat
  deriving DecidableEq, Repr

/-- Python `str.strip()`: remove whitespace from both ends. -/
def pyStrip (s : String) : String :=
  ⟨((s.data.dropWhile Char.isWhitespace).reverse.dropWhile Char.isWhitespace).reverse⟩

/-- Python `s.startswith(pre)`. -/
def pyStartswith (s pre : String) : Bool :=
  pre.data.isPrefixOf s.data

/-- Python slice `s[n:]`. -/
def pySliceFrom (s : String) (n : Nat) : String :=
  ⟨s.data.drop n⟩

/-- Lookup in an association list with Python-`dict` semantics
(`m.get(k)` / `m[k]`). -/
def dictGet {κ α : Type} [DecidableEq κ] : List (κ × α) → κ → Option α
  | [], _ => none
  | (k', v) :: rest, k => if k' = k then some v else dictGet rest k

/-- Update of an association list with Python-`dict` assignment semantics
(`m[k] = v`): an existing key keeps its position and gets the new value,
a fresh key is appended at the end. -/
def dictInsert {κ α : Type} [DecidableEq κ] : List (κ × α) → κ → α → List (κ × α)
  | [], k, v => [(k, v)]
  | (k', v') :: rest, k, v =>
      if k' = k then (k, v) :: rest else (k', v') :: dictInsert rest k v

/-- `self.file_map`: a Python dict from filename to File. -/
abbrev FileMap := List (String × File)

/-- `self.tool_file_map`: a Python dict from tool name to a dict from
parameter name to File. -/
abbrev RoutingTable := List (String × List (String × File))

/-- `self.file_map = {f.filename: f for f in files}` — index every file of
the sequence by its filename, later duplicates overwriting earlier ones. -/
def buildFileMap (files : List File) : FileMap :=
  files.foldl (fun m f => dictInsert m f.filename f) []

/-- Specification-side description of Python dict-comprehension lookup:
the last file of the list whose filename is `k`. -/
def lastMatch (k : String) : List File → Option File
  | [] => none
  | f :: rest =>
      match lastMatch k rest with
      | some g => some g
      | none => if f.filename = k then some f else none

/-- The messages `_invoke` can yield, separated by their payload:
`text` is `create_text_message`, `fileSelf` is the FILE message with meta
`{"file": file, "target": "self"}`, `fileRouted` is the FILE message with
meta `{"file": file, "target_tool": tool_name, "parameter_name": param_name}`. -/
inductive Msg where
  | text (s : String)
  | fileSelf (f : File)
  | fileRouted (f : File) (tool_name : String) (param_name : String)
  deriving DecidableEq, Repr

/-- The `tool_parameters` dict restricted to the three keys `_invoke`
reads. `none` in `file_id`/`target` models the key being absent or bound
to `None` (both make `dict.get` return `None`). For `parameter_name`,
`none` models the key being absent (so `dict.get(k, "file")` returns
`"file"`), `some none` models the key present and bound to `None`, and
`some (some s)` models the key bound to the string `s`. -/
structure ToolParams where
  file_id : Option String
  target : Option String
  parameter_name : Option (Option String)
  deriving DecidableEq, Repr

/-- Python truthiness of an optional string: `None` and `""` are falsy. -/
def pyTruthy : Option String → Bool
  | none => false
  | some s => !(s == "")

/-- State of a `FileDispatcherTool` instance: the fields of `self` the
dispatch logic reads or writes. -/
structure FileDispatcherTool where
  files : List File
  file_map : FileMap
  tool_file_map : RoutingTable
  deriving DecidableEq, Repr

/-- `FileDispatcherTool.__init__(files, tool_file_map)` at the level of
values. `tool_file_map or {}` evaluates to a fresh empty dict when the
argument is `None` or an empty (falsy) dict, and to the argument
otherwise; value-wise the empty cases are indistinguishable (the aliasing
difference is modelled by `initShared` below). -/
def FileDispatcherTool.init (files : List File) (tool_file_map : Option RoutingTable) :
    FileDispatcherTool :=
  { files := files
    file_map := buildFileMap files
    tool_file_map :=
      match tool_file_map with
      | none => []
      | some t => if t.isEmpty then [] else t }

/-- A dispatcher state with a given catalog and routing table, used to
state properties over an arbitrary current table. -/
def mkRouter (files : List File) (t : RoutingTable) : FileDispatcherTool :=
  { files := files, file_map := buildFileMap files, tool_file_map := t }

/-- Read `tool_file_map[tool][param]`, `none` when either level is absent. -/
def tfmGet (t : RoutingTable) (tool param : String) : Option File :=
  match dictGet t tool with
  | none => none
  | some inner => dictGet inner param

/-- The routed-branch update of `_invoke`:
`if tool_name not in map: map[tool_name] = {}` followed by
`map[tool_name][param_name] = file`. -/
def tfmWrite (t : RoutingTable) (tool_name param_name : String) (f : File) : RoutingTable :=
  let inner := (dictGet t tool_name).getD []
  dictInsert t tool_name (dictInsert inner param_name f)

/-- Lines 160–166 of `_invoke`: strip the `functions.` namespace marker
from the (already whitespace-stripped) target and produce the
informational note that the code yields in that case. -/
def normalizeToolName (stripped : String) : String × List Msg :=
  if pyStartswith stripped "functions." then
    let tn := pySliceFrom stripped 10
    (tn, [Msg.text ("Note: Removed 'functions.' prefix. Using tool name: '" ++ tn ++ "'")])
  else
    (stripped, [])

/-- `FileDispatcherTool._invoke`, translated statement by statement. The
result is the yielded message list together with the post-state of `self`;
`.error` models the `AttributeError` raised by `parameter_name.strip()`
when `tool_parameters["parameter_name"]` is present and `None`. -/
def FileDispatcherTool.invoke (d : FileDispatcherTool) (p : ToolParams) :
    Except String (List Msg × FileDispatcherTool) :=
  let file_id := p.file_id
  let target := p.target
  let parameter_name := p.parameter_name.getD (some "file")
  if !(pyTruthy file_id) then
    .ok ([.text "File ID is required"], d)
  else
    match dictGet d.file_map (file_id.getD "") with
    | none =>
        .ok ([.text ("File with ID '" ++ file_id.getD "" ++ "' not found")], d)
    | some file =>
        if !(pyTruthy target) then
          .ok ([.text "Target is required"], d)
        else
          let targetS := target.getD ""
          if targetS = "self" then
            .ok ([.fileSelf file], d)
          else
            match parameter_name with
            | none => .error "AttributeError: NoneType object has no attribute strip"
            | some pn =>
                let param_name := pyStrip pn
                let norm := normalizeToolName (pyStrip targetS)
                let tool_name := norm.1
                let msgs := norm.2
                if tool_name = "" then
                  .ok (msgs ++ [.text "Tool name cannot be empty"], d)
                else if param_name = "" then
                  .ok (msgs ++ [.text "Parameter name cannot be empty"], d)
                else
                  .ok (msgs ++ [.fileRouted file tool_name param_name],
                       { d with
                         tool_file_map := tfmWrite d.tool_file_map tool_name param_name file })

/-- A heap of routing-table objects addressed by `Nat`, used to model
Python reference sharing of the injected `tool_file_map` dict. `next` is
the next unused address. -/
structure Heap where
  tables : List (Nat × RoutingTable)
  next : Nat
  deriving DecidableEq, Repr

/-- A `FileDispatcherTool` whose `tool_file_map` field is a reference into
the heap rather than a value. -/
structure RouterRef where
  files : List File
  file_map : FileMap
  tableAddr : Nat
  deriving DecidableEq, Repr

/-- `__init__` at the level of references:
`self.tool_file_map = tool_file_map or {}` binds `self.tool_file_map` to
the caller's dict exactly when the argument is present and truthy
(non-empty); when the argument is `None` — or an empty, hence falsy,
dict — a fresh empty dict is allocated instead. -/
def initShared (files : List File) (arg : Option Nat) (h : Heap) : RouterRef × Heap :=
  let mk (a : Nat) : RouterRef :=
    { files := files, file_map := buildFileMap files, tableAddr := a }
  let fresh : RouterRef × Heap :=
    (mk h.next, { tables := dictInsert h.tables h.next [], next := h.next + 1 })
  match arg with
  | none => fresh
  | some a =>
      match dictGet h.tables a with
      | none => fresh
      | some t => if t.isEmpty then fresh else (mk a, h)

/-- `_invoke` acting through the reference: read the routing table the
instance points at, run the value-level `invoke`, write the updated table
back to the same address (Python mutates that one dict in place). -/
def dispatchShared (r : RouterRef) (h : Heap) (p : ToolParams) :
    Except String (List Msg × Heap) :=
  let d : FileDispatcherTool :=
    { files := r.files
      file_map := r.file_map
      tool_file_map := (dictGet h.tables r.tableAddr).getD [] }
  match d.invoke p with
  | .error e => .error e
  | .ok (msgs, d') =>
      .ok (msgs, { h with tables := dictInsert h.tables r.tableAddr d'.tool_file_map })

/-- Concrete file used to instantiate the general theorems. -/
def sampleA : File := ⟨"report.pdf", "document", 1024⟩

/-- A second concrete file with a different filename. -/
def sampleB : File := ⟨"notes.txt", "text", 10⟩

/-- A concrete catalog input with unique filenames. -/
def sampleFiles : List File := [sampleA, sampleB]

section DictLemmas

variable {κ α : Type} [DecidableEq κ]

theorem dictGet_dictInsert (m : List (κ × α)) (k k' : κ) (v : α) :
    dictGet (dictInsert m k v) k' = if k = k' then some v else dictGet m k' := by
  induction m with
  | nil => simp [dictGet, dictInsert]
  | cons hd tl ih =>
      obtain ⟨a, b⟩ := hd
      by_cases hak : a = k
      · subst hak
        simp [dictInsert, dictGet]
        by_cases hkk : a = k' <;> simp [hkk]
      · simp [dictInsert, hak, dictGet]
        by_cases hak' : a = k'
        · subst hak'
          have : ¬ k = a := fun heq => hak heq.symm
          simp [this]
        · simp [hak', ih]

theorem dictGet_dictInsert_same (m : List (κ × α)) (k : κ) (v : α) :
    dictGet (dictInsert m k v) k = some v := by
  simp [dictGet_dictInsert]

theorem dictGet_dictInsert_ne (m : List (κ × α)) (k k' : κ) (v : α) (h : k ≠ k') :
    dictGet (dictInsert m k v) k' = dictGet m k' := by
  simp [dictGet_dictInsert, h]

end DictLemmas

theorem dictGet_buildFileMap_aux (files : List File) (m : FileMap) (k : String) :
    dictGet (files.foldl (fun m f => dictInsert m f.filename f) m) k =
      match lastMatch k files with
      | some g => some g
      | none => dictGet m k := by
  induction files generalizing m with
  | nil => simp [lastMatch]
  | cons f rest ih =>
      simp only [List.foldl_cons, ih, lastMatch]
      cases hrest : lastMatch k rest with
      | some g => simp
      | none =>
          simp only [dictGet_dictInsert]
          by_cases hk : f.filename = k <;> simp [hk]

/-- Catalog lookup is exactly "the last file of the sequence with that
filename". -/
theorem dictGet_buildFileMap (files : List File) (k : String) :
    dictGet (buildFileMap files) k = lastMatch k files := by
  have h := dictGet_buildFileMap_aux files [] k
  simp only [buildFileMap] at h ⊢
  rw [h]
  cases lastMatch k files <;> simp [dictGet]

theorem lastMatch_eq_none (k : String) (files : List File)
    (h : ∀ x ∈ files, x.filename ≠ k) : lastMatch k files = none := by
  induction files with
  | nil => rfl
  | cons f rest ih =>
      have hf : f.filename ≠ k := h f (List.mem_cons_self f rest)
      have hrest := ih fun x hx => h x (List.mem_cons_of_mem f hx)
      simp [lastMatch, hrest, hf]

theorem lastMatch_of_unique (files : List File) (f : File)
    (huniq : files.Pairwise fun a b => a.filename ≠ b.filename)
    (hf : f ∈ files) : lastMatch f.filename files = some f := by
  induction files with
  | nil => cases hf
  | cons g rest ih =>
      rw [List.pairwise_cons] at huniq
      rcases List.mem_cons.mp hf with rfl | hmem
      · have hnone : lastMatch f.filename rest = none :=
          lastMatch_eq_none _ _ fun x hx => fun he => huniq.1 x hx he.symm
        simp [lastMatch, hnone]
      · have := ih huniq.2 hmem
        simp [lastMatch, this]

/-- With unique filenames, catalog lookup at a file's filename returns
that file. -/
theorem dictGet_buildFileMap_of_unique (files : List File) (f : File)
    (huniq : files.Pairwise fun a b => a.filename ≠ b.filename)
    (hf : f ∈ files) : dictGet (buildFileMap files) f.filename = some f := by
  rw [dictGet_buildFileMap]
  exact lastMatch_of_unique files f huniq hf

theorem tfmGet_tfmWrite_same (t : RoutingTable) (tool param : String) (f : File) :
    tfmGet (tfmWrite t tool param f) tool param = some f := by
  simp [tfmGet, tfmWrite, dictGet_dictInsert_same, dictGet_dictInsert_same]

theorem tfmGet_tfmWrite_ne (t : RoutingTable) (tool param tool' param' : String) (f : File)
    (h : tool' ≠ tool ∨ param' ≠ param) :
    tfmGet (tfmWrite t tool param f) tool' param' = tfmGet t tool' param' := by
  by_cases htool : tool' = tool
  · subst htool
    have hparam : param' ≠ param := h.resolve_left (fun hc => hc rfl)
    simp only [tfmGet, tfmWrite, dictGet_dictInsert_same]
    rw [dictGet_dictInsert_ne _ _ _ _ (fun he => hparam he.symm)]
    cases hlook : dictGet t tool' with
    | none => simp [dictGet]
    | some inner => simp
  · simp only [tfmGet, tfmWrite]
    rw [dictGet_dictInsert_ne _ _ _ _ (fun he => htool he.symm)]

section StringLemmas

theorem string_data_append (a b : String) : (a ++ b).data = a.data ++ b.data := by
  cases a
  cases b
  rfl

theorem isPrefixOf_self_append {α : Type} [BEq α] [LawfulBEq α] (l m : List α) :
    l.isPrefixOf (l ++ m) = true := by
  induction l with
  | nil => simp [List.isPrefixOf]
  | cons a as ih => simp [List.isPrefixOf, ih]

theorem pyStartswith_marker (X : String) :
    pyStartswith ("functions." ++ X) "functions." = true := by
  show ("functions.".data).isPrefixOf (("functions." ++ X).data) = true
  rw [string_data_append]
  exact isPrefixOf_self_append _ _

theorem pySliceFrom_marker (X : String) : pySliceFrom ("functions." ++ X) 10 = X := by
  show (⟨(("functions." ++ X)).data.drop 10⟩ : String) = X
  rw [string_data_append]
  have h10 : ("functions.".data).length = 10 := rfl
  rw [← h10, List.drop_left]

theorem marker_append_ne_self (X : String) : ("functions." ++ X) ≠ "self" := by
  intro h
  have hlen := congrArg (fun s => s.data.length) h
  simp only [string_data_append, List.length_append] at hlen
  have h1 : ("functions.".data).length = 10 := rfl
  have h2 : ("self" : String).data.length = 4 := rfl
  rw [h1, h2] at hlen
  omega

theorem marker_append_ne_empty (X : String) : ("functions." ++ X) ≠ "" := by
  intro h
  have hlen := congrArg (fun s => s.data.length) h
  simp only [string_data_append, List.length_append] at hlen
  have h1 : ("functions.".data).length = 10 := rfl
  have h2 : ("" : String).data.length = 0 := rfl
  rw [h1, h2] at hlen
  omega

theorem normalizeToolName_no_marker (s : String)
    (h : pyStartswith s "functions." = false) : normalizeToolName s = (s, []) := by
  simp [normalizeToolName, h]

theorem normalizeToolName_marker (X : String) :
    normalizeToolName ("functions." ++ X) =
      (X, [Msg.text ("Note: Removed 'functions.' prefix. Using tool name: '" ++ X ++ "'")]) := by
  simp [normalizeToolName, pyStartswith_marker, pySliceFrom_marker]

end StringLemmas

section InvokeLemmas

theorem invoke_file_id_falsy (d : FileDispatcherTool) (p : ToolParams)
    (h : pyTruthy p.file_id = false) :
    d.invoke p = .ok ([.text "File ID is required"], d) := by
  simp [FileDispatcherTool.invoke, h]

theorem invoke_not_found (d : FileDispatcherTool) (fid : String) (tg : Option String)
    (pn : Option (Option String)) (hfid : fid ≠ "")
    (hlook : dictGet d.file_map fid = none) :
    d.invoke ⟨some fid, tg, pn⟩ =
      .ok ([.text ("File with ID '" ++ fid ++ "' not found")], d) := by
  simp [FileDispatcherTool.invoke, pyTruthy, hfid, hlook]

theorem invoke_target_falsy (d : FileDispatcherTool) (fid : String) (tg : Option String)
    (pn : Option (Option String)) (f : File) (hfid : fid ≠ "")
    (hlook : dictGet d.file_map fid = some f) (htg : pyTruthy tg = false) :
    d.invoke ⟨some fid, tg, pn⟩ = .ok ([.text "Target is required"], d) := by
  cases tg with
  | none => simp [FileDispatcherTool.invoke, pyTruthy, hfid, hlook]
  | some s =>
      have hs : s = "" := by
        by_contra hne
        simp [pyTruthy, hne] at htg
      subst hs
      simp [FileDispatcherTool.invoke, pyTruthy, hfid, hlook]

theorem invoke_self_target (d : FileDispatcherTool) (fid : String)
    (pn : Option (Option String)) (f : File) (hfid : fid ≠ "")
    (hlook : dictGet d.file_map fid = some f) :
    d.invoke ⟨some fid, some "self", pn⟩ = .ok ([.fileSelf f], d) := by
  simp [FileDispatcherTool.invoke, pyTruthy, hfid, hlook]

theorem invoke_param_none (d : FileDispatcherTool) (fid tg : String) (f : File)
    (hfid : fid ≠ "") (hlook : dictGet d.file_map fid = some f)
    (htg0 : tg ≠ "") (htgself : tg ≠ "self") :
    d.invoke ⟨some fid, some tg, some none⟩ =
      .error "AttributeError: NoneType object has no attribute strip" := by
  simp [FileDispatcherTool.invoke, pyTruthy, hfid, hlook, htg0, htgself]

theorem invoke_tool_name_empty (d : FileDispatcherTool) (fid tg pnS : String)
    (pnOpt : Option (Option String)) (f : File)
    (hfid : fid ≠ "") (hlook : dictGet d.file_map fid = some f)
    (htg0 : tg ≠ "") (htgself : tg ≠ "self")
    (heff : pnOpt.getD (some "file") = some pnS)
    (hname : (normalizeToolName (pyStrip tg)).1 = "") :
    d.invoke ⟨some fid, some tg, pnOpt⟩ =
      .ok ((normalizeToolName (pyStrip tg)).2 ++ [.text "Tool name cannot be empty"], d) := by
  simp [FileDispatcherTool.invoke, pyTruthy, hfid, hlook, htg0, htgself, heff, hname]

theorem invoke_param_name_empty (d : FileDispatcherTool) (fid tg pnS : String)
    (pnOpt : Option (Option String)) (f : File)
    (hfid : fid ≠ "") (hlook : dictGet d.file_map fid = some f)
    (htg0 : tg ≠ "") (htgself : tg ≠ "self")
    (heff : pnOpt.getD (some "file") = some pnS)
    (hname : (normalizeToolName (pyStrip tg)).1 ≠ "")
    (hparam : pyStrip pnS = "") :
    d.invoke ⟨some fid, some tg, pnOpt⟩ =
      .ok ((normalizeToolName (pyStrip tg)).2 ++ [.text "Parameter name cannot be empty"], d) := by
  simp [FileDispatcherTool.invoke, pyTruthy, hfid, hlook, htg0, htgself, heff, hname, hparam]

theorem invoke_routed (d : FileDispatcherTool) (fid tg pnS : String)
    (pnOpt : Option (Option String)) (f : File)
    (hfid : fid ≠ "") (hlook : dictGet d.file_map fid = some f)
    (htg0 : tg ≠ "") (htgself : tg ≠ "self")
    (heff : pnOpt.getD (some "file") = some pnS)
    (hname : (normalizeToolName (pyStrip tg)).1 ≠ "")
    (hparam : pyStrip pnS ≠ "") :
    d.invoke ⟨some fid, some tg, pnOpt⟩ =
      .ok ((normalizeToolName (pyStrip tg)).2 ++
             [.fileRouted f (normalizeToolName (pyStrip tg)).1 (pyStrip pnS)],
           { d with
             tool_file_map :=
               tfmWrite d.tool_file_map (normalizeToolName (pyStrip tg)).1 (pyStrip pnS) f }) := by
  simp [FileDispatcherTool.invoke, pyTruthy, hfid, hlook, htg0, htgself, heff, hname, hparam]

theorem invoke_plain_tool (d : FileDispatcherTool) (fid T P : String) (f : File)
    (hfid : fid ≠ "") (hlook : dictGet d.file_map fid = some f)
    (hT : pyStrip T = T) (hT0 : T ≠ "") (hTself : T ≠ "self")
    (hTpre : pyStartswith T "functions." = false)
    (hP : pyStrip P = P) (hP0 : P ≠ "") :
    d.invoke ⟨some fid, some T, some (some P)⟩ =
      .ok ([.fileRouted f T P],
           { d with tool_file_map := tfmWrite d.tool_file_map T P f }) := by
  have hnorm : normalizeToolName (pyStrip T) = (T, []) := by
    rw [hT]
    exact normalizeToolName_no_marker T hTpre
  have h := invoke_routed d fid T P (some (some P)) f hfid hlook hT0 hTself rfl
    (by rw [hnorm]; exact hT0) (by rw [hP]; exact hP0)
  simpa [hnorm, hP] using h

theorem invoke_preserves_catalog (d : FileDispatcherTool) (p : ToolParams)
    (msgs : List Msg) (d' : FileDispatcherTool)
    (h : d.invoke p = .ok (msgs, d')) : d'.files = d.files ∧ d'.file_map = d.file_map := by
  simp only [FileDispatcherTool.invoke] at h
  repeat' split at h
  all_goals first
    | exact (Except.noConfusion h)
    | (injection h with hx; injection hx with hm hd; subst hd; exact ⟨rfl, rfl⟩)

end InvokeLemmas

theorem lastMatch_filename (k : String) (files : List File) (g : File)
    (h : lastMatch k files = some g) : g.filename = k := by
  induction files with
  | nil => cases h
  | cons f rest ih =>
      simp only [lastMatch] at h
      cases hrest : lastMatch k rest with
      | some g' =>
          rw [hrest] at h
          cases h
          exact ih hrest
      | none =>
          rw [hrest] at h
          by_cases hk : f.filename = k
          · simp [hk] at h
            rw [← h]
            exact hk
          · simp [hk] at h

theorem lastMatch_isSome_of_mem (files : List File) (f : File) (hf : f ∈ files) :
    (lastMatch f.filename files).isSome = true := by
  induction files with
  | nil => cases hf
  | cons g rest ih =>
      simp only [lastMatch]
      rcases List.mem_cons.mp hf with rfl | hmem
      · cases hrest : lastMatch f.filename rest with
        | some g' => simp
        | none => simp
      · cases hrest : lastMatch f.filename rest with
        | some g' => simp
        | none =>
            have := ih hmem
            rw [hrest] at this
            cases this

/-- Value-wise, `__init__` with any supplied table behaves like `mkRouter`
on that table (with `[]` for an absent argument). -/
theorem init_eq_mkRouter (files : List File) (tfm : Option RoutingTable) :
    FileDispatcherTool.init files tfm = mkRouter files (tfm.getD []) := by
  cases tfm with
  | none => rfl
  | some t => cases t <;> rfl

/-- C1: for a catalog built from files with unique filenames, a fileId
equal to a catalog filename, a non-empty tool name `T` (not `"self"`,
without the `functions.` marker, and — being a name — carrying no
surrounding whitespace) and a non-empty parameter name `P`, dispatching
`(fileId, T, P)` writes the file resolved for `fileId` into
`RoutingTable[T][P]` (via `tfmWrite`, which creates the inner mapping if
absent and overwrites any prior value, over an arbitrary prior table) and
yields the routed-delivery message carrying that file and the pair
`(T, P)`. -/
theorem routed_dispatch_writes_routing_table
    (files : List File) (t : RoutingTable) (f : File) (fileId T P : String)
    (huniq : files.Pairwise fun a b => a.filename ≠ b.filename)
    (hf : f ∈ files) (hid : f.filename = fileId) (hne : fileId ≠ "")
    (hT : pyStrip T = T) (hT0 : T ≠ "") (hTself : T ≠ "self")
    (hTpre : pyStartswith T "functions." = false)
    (hP : pyStrip P = P) (hP0 : P ≠ "") :
    (mkRouter files t).invoke ⟨some fileId, some T, some (some P)⟩ =
      .ok ([.fileRouted f T P], mkRouter files (tfmWrite t T P f)) ∧
    tfmGet (tfmWrite t T P f) T P = some f := by
  have hlook : dictGet (mkRouter files t).file_map fileId = some f := by
    show dictGet (buildFileMap files) fileId = some f
    rw [← hid]
    exact dictGet_buildFileMap_of_unique files f huniq hf
  refine ⟨?_, tfmGet_tfmWrite_same t T P f⟩
  have h := invoke_plain_tool (mkRouter files t) fileId T P f hne hlook hT hT0 hTself hTpre hP hP0
  simpa [mkRouter] using h

/-- Witness for C1 at a concrete catalog, tool name and parameter name. -/
theorem routed_dispatch_writes_routing_table_witness :
    (sampleFiles.Pairwise (fun a b => a.filename ≠ b.filename) ∧
     sampleA ∈ sampleFiles ∧ sampleA.filename = "report.pdf" ∧ "report.pdf" ≠ "" ∧
     pyStrip "summarizer" = "summarizer" ∧ "summarizer" ≠ "" ∧ "summarizer" ≠ "self" ∧
     pyStartswith "summarizer" "functions." = false ∧
     pyStrip "input_file" = "input_file" ∧ "input_file" ≠ "") ∧
    ((mkRouter sampleFiles []).invoke
        ⟨some "report.pdf", some "summarizer", some (some "input_file")⟩ =
      .ok ([.fileRouted sampleA "summarizer" "input_file"],
           mkRouter sampleFiles (tfmWrite [] "summarizer" "input_file" sampleA)) ∧
     tfmGet (tfmWrite [] "summarizer" "input_file" sampleA) "summarizer" "input_file" =
       some sampleA) :=
  ⟨by decide,
   routed_dispatch_writes_routing_table sampleFiles [] sampleA "report.pdf" "summarizer"
     "input_file" (by decide) (by decide) (by decide) (by decide) (by decide) (by decide)
     (by decide) (by decide) (by decide) (by decide)⟩

/-- C2: with unique filenames, dispatching a catalog filename with target
exactly `"self"` yields the self-delivery message carrying exactly the
file with that filename, for any supplied `parameter_name`, and leaves the
dispatcher state — in particular the routing table — unchanged. -/
theorem self_dispatch_returns_file_without_mutation
    (files : List File) (t : RoutingTable) (f : File) (fileId : String)
    (pn : Option (Option String))
    (huniq : files.Pairwise fun a b => a.filename ≠ b.filename)
    (hf : f ∈ files) (hid : f.filename = fileId) (hne : fileId ≠ "") :
    (mkRouter files t).invoke ⟨some fileId, some "self", pn⟩ =
      .ok ([.fileSelf f], mkRouter files t) := by
  have hlook : dictGet (mkRouter files t).file_map fileId = some f := by
    show dictGet (buildFileMap files) fileId = some f
    rw [← hid]
    exact dictGet_buildFileMap_of_unique files f huniq hf
  exact invoke_self_target (mkRouter files t) fileId pn f hne hlook

/-- Witness for C2 at a concrete catalog. -/
theorem self_dispatch_returns_file_without_mutation_witness :
    (sampleFiles.Pairwise (fun a b => a.filename ≠ b.filename) ∧
     sampleA ∈ sampleFiles ∧ sampleA.filename = "report.pdf" ∧ "report.pdf" ≠ "") ∧
    (mkRouter sampleFiles []).invoke ⟨some "report.pdf", some "self", none⟩ =
      .ok ([.fileSelf sampleA], mkRouter sampleFiles []) :=
  ⟨by decide,
   self_dispatch_returns_file_without_mutation sampleFiles [] sampleA "report.pdf" none
     (by decide) (by decide) (by decide) (by decide)⟩

/-- C3: each validation failure — `file_id` absent or empty, `file_id` not
in the catalog, `target` absent or empty, tool name empty after marker
stripping, parameter name empty after trimming — yields its diagnostic and
returns the dispatcher unchanged. The equalities give the exact full
output, so they also establish fail-fast precedence: each earlier check
masks all later ones (e.g. the first two conjuncts hold for every target
and parameter value, however invalid). -/
theorem validation_failures_fail_fast_without_mutation (d : FileDispatcherTool) :
    (∀ tg pn, d.invoke ⟨none, tg, pn⟩ = .ok ([.text "File ID is required"], d)) ∧
    (∀ tg pn, d.invoke ⟨some "", tg, pn⟩ = .ok ([.text "File ID is required"], d)) ∧
    (∀ fid tg pn, fid ≠ "" → dictGet d.file_map fid = none →
       d.invoke ⟨some fid, tg, pn⟩ =
         .ok ([.text ("File with ID '" ++ fid ++ "' not found")], d)) ∧
    (∀ fid f pn, fid ≠ "" → dictGet d.file_map fid = some f →
       d.invoke ⟨some fid, none, pn⟩ = .ok ([.text "Target is required"], d) ∧
       d.invoke ⟨some fid, some "", pn⟩ = .ok ([.text "Target is required"], d)) ∧
    (∀ fid f tg pnOpt pnS, fid ≠ "" → dictGet d.file_map fid = some f →
       tg ≠ "" → tg ≠ "self" → pnOpt.getD (some "file") = some pnS →
       (normalizeToolName (pyStrip tg)).1 = "" →
       d.invoke ⟨some fid, some tg, pnOpt⟩ =
         .ok ((normalizeToolName (pyStrip tg)).2 ++ [.text "Tool name cannot be empty"], d)) ∧
    (∀ fid f tg pnOpt pnS, fid ≠ "" → dictGet d.file_map fid = some f →
       tg ≠ "" → tg ≠ "self" → pnOpt.getD (some "file") = some pnS →
       (normalizeToolName (pyStrip tg)).1 ≠ "" → pyStrip pnS = "" →
       d.invoke ⟨some fid, some tg, pnOpt⟩ =
         .ok ((normalizeToolName (pyStrip tg)).2 ++ [.text "Parameter name cannot be empty"], d)) := by
  refine ⟨?_, ?_, ?_, ?_, ?_, ?_⟩
  · exact fun tg pn => invoke_file_id_falsy d ⟨none, tg, pn⟩ rfl
  · exact fun tg pn => invoke_file_id_falsy d ⟨some "", tg, pn⟩ rfl
  · exact fun fid tg pn hfid hlook => invoke_not_found d fid tg pn hfid hlook
  · exact fun fid f pn hfid hlook =>
      ⟨invoke_target_falsy d fid none pn f hfid hlook rfl,
       invoke_target_falsy d fid (some "") pn f hfid hlook rfl⟩
  · exact fun fid f tg pnOpt pnS hfid hlook htg0 htgself heff hname =>
      invoke_tool_name_empty d fid tg pnS pnOpt f hfid hlook htg0 htgself heff hname
  · exact fun fid f tg pnOpt pnS hfid hlook htg0 htgself heff hname hparam =>
      invoke_param_name_empty d fid tg pnS pnOpt f hfid hlook htg0 htgself heff hname hparam

/-- Witness for C3: the not-found failure at a concrete dispatcher, with a
target and parameter that would themselves be invalid later — the call
still stops at the not-found diagnostic with the state unchanged. -/
theorem validation_failures_fail_fast_without_mutation_witness :
    ("missing.doc" ≠ "" ∧ dictGet (mkRouter sampleFiles []).file_map "missing.doc" = none) ∧
    (mkRouter sampleFiles []).invoke ⟨some "missing.doc", some "", some none⟩ =
      .ok ([.text "File with ID 'missing.doc' not found"], mkRouter sampleFiles []) :=
  ⟨⟨by decide, by decide⟩,
   (validation_failures_fail_fast_without_mutation (mkRouter sampleFiles [])).2.2.1
     "missing.doc" (some "") (some none) (by decide) (by decide)⟩

/-- C4, behaviour at the failing input: a caller supplies its own *empty*
routing table (heap address 0). Because `__init__` computes
`tool_file_map or {}` and an empty dict is falsy, the constructed instance
binds a *fresh* table (address 1) instead of the supplied one, and a
subsequent routed dispatch writes only the fresh table: the caller's table
at address 0 still holds `[]` afterwards. This contradicts both the claim
and the docstring's "Shared map for tool files". -/
theorem empty_supplied_table_is_not_shared :
    (initShared [sampleA] (some 0) ⟨[(0, [])], 1⟩).1.tableAddr = 1 ∧
    dispatchShared (initShared [sampleA] (some 0) ⟨[(0, [])], 1⟩).1
        (initShared [sampleA] (some 0) ⟨[(0, [])], 1⟩).2
        ⟨some "report.pdf", some "converter", some (some "arg")⟩ =
      .ok ([.fileRouted sampleA "converter" "arg"],
           ⟨[(0, []), (1, [("converter", [("arg", sampleA)])])], 2⟩) ∧
    (initShared [sampleA] (some 1) ⟨[(1, [("x", [("y", sampleB)])])], 2⟩).1.tableAddr = 1 := by
  refine ⟨by decide, by decide, by decide⟩

/-- C5 counterexample: with target `" self "` (equal to `"self"` only
after trimming) and a valid fileId, the code does *not* produce a
self-delivery without mutation — the comparison `target == "self"` runs on
the untrimmed string, so the call routes to a tool literally named
`"self"` and writes the routing table. -/
theorem untrimmed_self_target_counterexample :
    (mkRouter [sampleA] []).invoke ⟨some "report.pdf", some " self ", none⟩ =
      .ok ([.fileRouted sampleA "self" "file"],
           mkRouter [sampleA] [("self", [("file", sampleA)])]) ∧
    (mkRouter [sampleA] []).invoke ⟨some "report.pdf", some " self ", none⟩ ≠
      .ok ([.fileSelf sampleA], mkRouter [sampleA] []) := by
  refine ⟨by decide, by decide⟩

/-- C5 amended: the target is classified *before* it is trimmed — only a
target exactly equal to `"self"` takes the self-delivery branch. A target
equal to `"self"` merely after trimming is handled as a tool name: it is
trimmed to `"self"` and routed, writing `RoutingTable["self"]["file"]`
(with the defaulted parameter name) and yielding a routed-delivery
message for tool `"self"`. -/
theorem self_target_classified_before_trimming
    (files : List File) (t : RoutingTable) (f : File) (fileId target : String)
    (huniq : files.Pairwise fun a b => a.filename ≠ b.filename)
    (hf : f ∈ files) (hid : f.filename = fileId) (hne : fileId ≠ "")
    (htrim : pyStrip target = "self") (hraw : target ≠ "self") :
    (mkRouter files t).invoke ⟨some fileId, some target, none⟩ =
      .ok ([.fileRouted f "self" "file"],
           mkRouter files (tfmWrite t "self" "file" f)) := by
  have h0 : target ≠ "" := by
    intro h
    rw [h] at htrim
    exact absurd htrim (by decide)
  have hlook : dictGet (mkRouter files t).file_map fileId = some f := by
    show dictGet (buildFileMap files) fileId = some f
    rw [← hid]
    exact dictGet_buildFileMap_of_unique files f huniq hf
  have hnorm : normalizeToolName (pyStrip target) = ("self", []) := by
    rw [htrim]
    exact normalizeToolName_no_marker "self" (by decide)
  have h := invoke_routed (mkRouter files t) fileId target "file" none f hne hlook h0 hraw rfl
    (by rw [hnorm]; decide) (by decide)
  rw [hnorm] at h
  simpa [mkRouter] using h

/-- Witness for the amended C5 at the concrete target `" self "`. -/
theorem self_target_classified_before_trimming_witness :
    ([sampleA].Pairwise (fun a b => a.filename ≠ b.filename) ∧
     sampleA ∈ [sampleA] ∧ sampleA.filename = "report.pdf" ∧ "report.pdf" ≠ "" ∧
     pyStrip " self " = "self" ∧ " self " ≠ "self") ∧
    (mkRouter [sampleA] []).invoke ⟨some "report.pdf", some " self ", none⟩ =
      .ok ([.fileRouted sampleA "self" "file"],
           mkRouter [sampleA] (tfmWrite [] "self" "file" sampleA)) :=
  ⟨by decide,
   self_target_classified_before_trimming [sampleA] [] sampleA "report.pdf" " self "
     (by decide) (by decide) (by decide) (by decide) (by decide) (by decide)⟩

/-- C6, behaviour at the failing input: with a valid fileId, a tool
target, and `parameter_name` explicitly supplied as `None`, the call does
not stop with a diagnostic — `parameter_name.strip()` raises an
`AttributeError` that escapes the call boundary. -/
theorem explicit_null_parameter_name_raises :
    (mkRouter [sampleA] []).invoke ⟨some "report.pdf", some "converter", some none⟩ =
      .error "AttributeError: NoneType object has no attribute strip" := by
  decide

/-- C7: a target of the form `functions.X` with non-empty `X` (and no
surrounding whitespace) is normalized: the marker is stripped, an
informational note naming `X` is yielded, the call does not fail on
account of the normalization, and `RoutingTable[X][P]` is written,
followed by the routed-delivery message. When the stripped remainder is
empty — target exactly `"functions."` — the call instead fails with the
tool-name-empty diagnostic (after the note) and leaves the state
unchanged. -/
theorem marker_target_normalized_and_routed
    (files : List File) (t : RoutingTable) (f : File) (fileId X P : String)
    (huniq : files.Pairwise fun a b => a.filename ≠ b.filename)
    (hf : f ∈ files) (hid : f.filename = fileId) (hne : fileId ≠ "")
    (hX : pyStrip ("functions." ++ X) = "functions." ++ X) (hX0 : X ≠ "")
    (hP : pyStrip P = P) (hP0 : P ≠ "") :
    ((mkRouter files t).invoke ⟨some fileId, some ("functions." ++ X), some (some P)⟩ =
       .ok ([.text ("Note: Removed 'functions.' prefix. Using tool name: '" ++ X ++ "'"),
             .fileRouted f X P],
            mkRouter files (tfmWrite t X P f)) ∧
     tfmGet (tfmWrite t X P f) X P = some f) ∧
    (mkRouter files t).invoke ⟨some fileId, some "functions.", some (some P)⟩ =
      .ok ([.text "Note: Removed 'functions.' prefix. Using tool name: ''",
            .text "Tool name cannot be empty"], mkRouter files t) := by
  have hlook : dictGet (mkRouter files t).file_map fileId = some f := by
    show dictGet (buildFileMap files) fileId = some f
    rw [← hid]
    exact dictGet_buildFileMap_of_unique files f huniq hf
  refine ⟨⟨?_, tfmGet_tfmWrite_same t X P f⟩, ?_⟩
  · have hnorm : normalizeToolName (pyStrip ("functions." ++ X)) =
        (X, [Msg.text ("Note: Removed 'functions.' prefix. Using tool name: '" ++ X ++ "'")]) := by
      rw [hX]
      exact normalizeToolName_marker X
    have h := invoke_routed (mkRouter files t) fileId ("functions." ++ X) P (some (some P)) f
      hne hlook (marker_append_ne_empty X) (marker_append_ne_self X) rfl
      (by rw [hnorm]; exact hX0) (by rw [hP]; exact hP0)
    rw [hnorm] at h
    simpa [mkRouter, hP] using h
  · have hnorm2 : normalizeToolName (pyStrip "functions.") =
        ("", [Msg.text "Note: Removed 'functions.' prefix. Using tool name: ''"]) := by
      decide
    have h := invoke_tool_name_empty (mkRouter files t) fileId "functions." P (some (some P)) f
      hne hlook (by decide) (by decide) rfl (by rw [hnorm2])
    rw [hnorm2] at h
    simpa using h

/-- Witness for C7 at the spec's concrete example
`functions.markdown_converter`. -/
theorem marker_target_normalized_and_routed_witness :
    (sampleFiles.Pairwise (fun a b => a.filename ≠ b.filename) ∧
     sampleA ∈ sampleFiles ∧ sampleA.filename = "report.pdf" ∧ "report.pdf" ≠ "" ∧
     pyStrip ("functions." ++ "markdown_converter") = "functions." ++ "markdown_converter" ∧
     "markdown_converter" ≠ "" ∧ pyStrip "file" = "file" ∧ "file" ≠ "") ∧
    (((mkRouter sampleFiles []).invoke
        ⟨some "report.pdf", some ("functions." ++ "markdown_converter"), some (some "file")⟩ =
       .ok ([.text ("Note: Removed 'functions.' prefix. Using tool name: '" ++
                      "markdown_converter" ++ "'"),
             .fileRouted sampleA "markdown_converter" "file"],
            mkRouter sampleFiles (tfmWrite [] "markdown_converter" "file" sampleA)) ∧
      tfmGet (tfmWrite [] "markdown_converter" "file" sampleA) "markdown_converter" "file" =
        some sampleA) ∧
     (mkRouter sampleFiles []).invoke ⟨some "report.pdf", some "functions.", some (some "file")⟩ =
       .ok ([.text "Note: Removed 'functions.' prefix. Using tool name: ''",
             .text "Tool name cannot be empty"], mkRouter sampleFiles [])) :=
  ⟨by decide,
   marker_target_normalized_and_routed sampleFiles [] sampleA "report.pdf" "markdown_converter"
     "file" (by decide) (by decide) (by decide) (by decide) (by decide) (by decide) (by decide)
     (by decide)⟩

/-- C8: two successive routed dispatches to the same `(T, P)` slot with
two different valid fileIds leave `RoutingTable[T][P]` holding exactly the
file of the second dispatch — the first write is silently overwritten. -/
theorem last_write_wins_same_slot
    (files : List File) (t : RoutingTable) (f1 f2 : File) (id1 id2 T P : String)
    (huniq : files.Pairwise fun a b => a.filename ≠ b.filename)
    (hf1 : f1 ∈ files) (hid1 : f1.filename = id1) (h1ne : id1 ≠ "")
    (hf2 : f2 ∈ files) (hid2 : f2.filename = id2) (h2ne : id2 ≠ "")
    (hdiff : id1 ≠ id2)
    (hT : pyStrip T = T) (hT0 : T ≠ "") (hTself : T ≠ "self")
    (hTpre : pyStartswith T "functions." = false)
    (hP : pyStrip P = P) (hP0 : P ≠ "") :
    (mkRouter files t).invoke ⟨some id1, some T, some (some P)⟩ =
      .ok ([.fileRouted f1 T P], mkRouter files (tfmWrite t T P f1)) ∧
    (mkRouter files (tfmWrite t T P f1)).invoke ⟨some id2, some T, some (some P)⟩ =
      .ok ([.fileRouted f2 T P],
           mkRouter files (tfmWrite (tfmWrite t T P f1) T P f2)) ∧
    tfmGet (tfmWrite (tfmWrite t T P f1) T P f2) T P = some f2 ∧
    f2 ≠ f1 := by
  have hlook1 : dictGet (mkRouter files t).file_map id1 = some f1 := by
    show dictGet (buildFileMap files) id1 = some f1
    rw [← hid1]
    exact dictGet_buildFileMap_of_unique files f1 huniq hf1
  have hlook2 : dictGet (mkRouter files (tfmWrite t T P f1)).file_map id2 = some f2 := by
    show dictGet (buildFileMap files) id2 = some f2
    rw [← hid2]
    exact dictGet_buildFileMap_of_unique files f2 huniq hf2
  refine ⟨?_, ?_, tfmGet_tfmWrite_same _ T P f2, ?_⟩
  · have h := invoke_plain_tool (mkRouter files t) id1 T P f1 h1ne hlook1 hT hT0 hTself hTpre hP hP0
    simpa [mkRouter] using h
  · have h := invoke_plain_tool (mkRouter files (tfmWrite t T P f1)) id2 T P f2 h2ne hlook2
      hT hT0 hTself hTpre hP hP0
    simpa [mkRouter] using h
  · intro hc
    rw [hc] at hid2
    exact hdiff (hid1 ▸ hid2)

/-- Witness for C8: two dispatches of different files to the same slot. -/
theorem last_write_wins_same_slot_witness :
    (sampleFiles.Pairwise (fun a b => a.filename ≠ b.filename) ∧
     sampleA ∈ sampleFiles ∧ sampleA.filename = "report.pdf" ∧ "report.pdf" ≠ "" ∧
     sampleB ∈ sampleFiles ∧ sampleB.filename = "notes.txt" ∧ "notes.txt" ≠ "" ∧
     "report.pdf" ≠ "notes.txt" ∧
     pyStrip "summarizer" = "summarizer" ∧ "summarizer" ≠ "" ∧ "summarizer" ≠ "self" ∧
     pyStartswith "summarizer" "functions." = false ∧
     pyStrip "input_file" = "input_file" ∧ "input_file" ≠ "") ∧
    ((mkRouter sampleFiles []).invoke
        ⟨some "report.pdf", some "summarizer", some (some "input_file")⟩ =
      .ok ([.fileRouted sampleA "summarizer" "input_file"],
           mkRouter sampleFiles (tfmWrite [] "summarizer" "input_file" sampleA)) ∧
     (mkRouter sampleFiles (tfmWrite [] "summarizer" "input_file" sampleA)).invoke
        ⟨some "notes.txt", some "summarizer", some (some "input_file")⟩ =
      .ok ([.fileRouted sampleB "summarizer" "input_file"],
           mkRouter sampleFiles
             (tfmWrite (tfmWrite [] "summarizer" "input_file" sampleA)
               "summarizer" "input_file" sampleB)) ∧
     tfmGet (tfmWrite (tfmWrite [] "summarizer" "input_file" sampleA)
         "summarizer" "input_file" sampleB) "summarizer" "input_file" = some sampleB ∧
     sampleB ≠ sampleA) :=
  ⟨by decide,
   last_write_wins_same_slot sampleFiles [] sampleA sampleB "report.pdf" "notes.txt"
     "summarizer" "input_file" (by decide) (by decide) (by decide) (by decide) (by decide)
     (by decide) (by decide) (by decide) (by decide) (by decide) (by decide) (by decide)
     (by decide) (by decide)⟩

/-- C9: catalog construction indexes every file of the input sequence by
its filename; lookup returns exactly the *last* file of the sequence with
the looked-up filename (so on duplicate filenames the later one wins), and
every member's filename is present in the catalog, mapped to a file with
that same filename. -/
theorem catalog_indexes_by_filename_last_wins :
    (∀ (files : List File) (k : String),
       dictGet (buildFileMap files) k = lastMatch k files) ∧
    (∀ (files : List File) (f : File), f ∈ files →
       ∃ g, dictGet (buildFileMap files) f.filename = some g ∧ g.filename = f.filename) := by
  refine ⟨dictGet_buildFileMap, ?_⟩
  intro files f hf
  have hs := lastMatch_isSome_of_mem files f hf
  cases hg : lastMatch f.filename files with
  | none => rw [hg] at hs; cases hs
  | some g =>
      exact ⟨g, by rw [dictGet_buildFileMap, hg], lastMatch_filename _ _ _ hg⟩

/-- Witness for C9 on a sequence with a duplicate filename: the later
duplicate wins, and a member's filename resolves. -/
theorem catalog_indexes_by_filename_last_wins_witness :
    (dictGet (buildFileMap [sampleA, sampleB, ⟨"report.pdf", "document", 9⟩]) "report.pdf" =
       lastMatch "report.pdf" [sampleA, sampleB, ⟨"report.pdf", "document", 9⟩] ∧
     lastMatch "report.pdf" [sampleA, sampleB, ⟨"report.pdf", "document", 9⟩] =
       some ⟨"report.pdf", "document", 9⟩) ∧
    (sampleB ∈ sampleFiles ∧
     ∃ g, dictGet (buildFileMap sampleFiles) sampleB.filename = some g ∧
       g.filename = sampleB.filename) :=
  ⟨⟨catalog_indexes_by_filename_last_wins.1 [sampleA, sampleB, ⟨"report.pdf", "document", 9⟩]
      "report.pdf", by decide⟩,
   ⟨by decide, catalog_indexes_by_filename_last_wins.2 sampleFiles sampleB (by decide)⟩⟩

/-- C10: a successful routed dispatch changes only the `(T, P)` entry of
the routing table — every other `(T', P')` slot reads the same as before —
and every call of `invoke` that returns (rather than raising) leaves the
file sequence and the catalog of the dispatcher unchanged. -/
theorem routed_dispatch_frame_condition :
    (∀ (d : FileDispatcherTool) (fid T P : String) (f : File),
       fid ≠ "" → dictGet d.file_map fid = some f →
       pyStrip T = T → T ≠ "" → T ≠ "self" → pyStartswith T "functions." = false →
       pyStrip P = P → P ≠ "" →
       d.invoke ⟨some fid, some T, some (some P)⟩ =
         .ok ([.fileRouted f T P],
              { d with tool_file_map := tfmWrite d.tool_file_map T P f }) ∧
       ∀ T' P', T' ≠ T ∨ P' ≠ P →
         tfmGet (tfmWrite d.tool_file_map T P f) T' P' = tfmGet d.tool_file_map T' P') ∧
    (∀ (d : FileDispatcherTool) (p : ToolParams) (msgs : List Msg) (d' : FileDispatcherTool),
       d.invoke p = .ok (msgs, d') → d'.files = d.files ∧ d'.file_map = d.file_map) := by
  refine ⟨?_, invoke_preserves_catalog⟩
  intro d fid T P f hfid hlook hT hT0 hTself hTpre hP hP0
  exact ⟨invoke_plain_tool d fid T P f hfid hlook hT hT0 hTself hTpre hP hP0,
         fun T' P' h => tfmGet_tfmWrite_ne d.tool_file_map T P T' P' f h⟩

/-- Witness for C10: a routed dispatch over a non-trivial table, checked
at an untouched slot, plus catalog preservation at that call. -/
theorem routed_dispatch_frame_condition_witness :
    ("report.pdf" ≠ "" ∧
     dictGet (mkRouter sampleFiles [("other", [("p", sampleB)])]).file_map "report.pdf" =
       some sampleA ∧
     pyStrip "summarizer" = "summarizer" ∧ "summarizer" ≠ "" ∧ "summarizer" ≠ "self" ∧
     pyStartswith "summarizer" "functions." = false ∧
     pyStrip "input_file" = "input_file" ∧ "input_file" ≠ "" ∧
     (("other" : String) ≠ "summarizer" ∨ ("p" : String) ≠ "input_file")) ∧
    ((mkRouter sampleFiles [("other", [("p", sampleB)])]).invoke
        ⟨some "report.pdf", some "summarizer", some (some "input_file")⟩ =
      .ok ([.fileRouted sampleA "summarizer" "input_file"],
           { mkRouter sampleFiles [("other", [("p", sampleB)])] with
             tool_file_map :=
               tfmWrite [("other", [("p", sampleB)])] "summarizer" "input_file" sampleA }) ∧
     tfmGet (tfmWrite [("other", [("p", sampleB)])] "summarizer" "input_file" sampleA)
         "other" "p" =
       tfmGet [("other", [("p", sampleB)])] "other" "p") :=
  ⟨by decide,
   ⟨(routed_dispatch_frame_condition.1 (mkRouter sampleFiles [("other", [("p", sampleB)])])
       "report.pdf" "summarizer" "input_file" sampleA (by decide) (by decide) (by decide)
       (by decide) (by decide) (by decide) (by decide) (by decide)).1,
    (routed_dispatch_frame_condition.1 (mkRouter sampleFiles [("other", [("p", sampleB)])])
       "report.pdf" "summarizer" "input_file" sampleA (by decide) (by decide) (by decide)
       (by decide) (by decide) (by decide) (by decide) (by decide)).2 "other" "p"
      (by decide)⟩⟩

end FileDispatcher
